import Mathlib

/-!
Verification of the Search Session and Credit Ledger component of the
face-search bot (files `src/bot.py`, `src/facecheck_client.py`,
`src/gift_card_payment.py`).

The embedding is shallow: Python dictionaries become association lists,
`time.time()` becomes an explicit integer `now` parameter, the hosted
database becomes an explicit `LedgerDb` state record, and each handler
becomes a pure state-passing function.  The module `src/database.py` is
imported by the sources but is not part of the repository; its narrow
primitives (`add_paid_searches`, `use_search`, `record_payment`, the
generic `update`/`insert` row operations) are modelled from the spec and
are marked as such in their doc comments.
-/

namespace FaceBot

/-- Lookup in an association list (embeds Python dict read `d[k]` / `d.get(k)`). -/
def assocFind {α β : Type} [DecidableEq α] : List (α × β) → α → Option β
  | [], _ => none
  | (k, v) :: rest, key => if k = key then some v else assocFind rest key

/-- Overwrite-or-insert in an association list (embeds Python dict write `d[k] = v`). -/
def assocSet {α β : Type} [DecidableEq α] : List (α × β) → α → β → List (α × β)
  | [], key, v => [(key, v)]
  | (k, w) :: rest, key, v =>
    if k = key then (key, v) :: rest else (k, w) :: assocSet rest key v

/-- Python truthiness of an optional string: `None` and the empty string are falsy. -/
def strTruthy : Option String → Bool
  | none => false
  | some s => s ≠ ""

/-- Renders an optional timestamp the way a Python f-string renders the value. -/
def optTimeStr : Option Int → String
  | none => "None"
  | some t => toString t

/- ## Gift cards (`src/gift_card_payment.py`) -/

/-- Embeds a row of the `gift_cards` table as created by
`GiftCardManager.create_gift_cards` and read by `validate_code`. -/
structure GiftCard where
  id : Nat
  code : String
  searches_amount : Nat
  is_redeemed : Bool
  redeemed_by : Option Int
  redeemed_at : Option Int
deriving DecidableEq

/-- Embeds a row of the `gift_card_redemptions` table as inserted by
`GiftCardManager.redeem_code`. -/
structure Redemption where
  telegram_id : Int
  gift_card_id : Option Nat
  searches_amount : Nat
  code : String
  redeemed_at : Int
deriving DecidableEq

/-- The backend database state visible to the gift card manager.
`paid_balances` maps a telegram id to its paid-search balance,
`add_paid_ok` models whether the backend write performed by
`db.add_paid_searches` succeeds (the module `src/database.py` is absent
from the repository; the spec describes the call as incrementing the paid
balance by `n`, with write failures surfaced as a `False` return). -/
structure LedgerDb where
  paid_balances : List (Int × Nat)
  gift_cards : List GiftCard
  redemptions : List Redemption
  add_paid_ok : Bool
deriving DecidableEq

/-- Paid-search balance of a user (absent user reads as 0). -/
def paidBalance (db : LedgerDb) (uid : Int) : Nat :=
  (assocFind db.paid_balances uid).getD 0

/-- Increment the paid balance of `uid` by `n`, inserting the user if absent. -/
def bumpPaid : List (Int × Nat) → Int → Nat → List (Int × Nat)
  | [], uid, n => [(uid, n)]
  | (k, v) :: rest, uid, n =>
    if k = uid then (k, v + n) :: rest else (k, v) :: bumpPaid rest uid n

/-- Modelled from the spec: `db.add_paid_searches(user, n)` of the missing
`src/database.py` "increments paid balance by n"; it returns whether the
backend write succeeded, and a failed write leaves the state unchanged. -/
def add_paid_searches (db : LedgerDb) (uid : Int) (n : Nat) : Bool × LedgerDb :=
  if db.add_paid_ok then
    (true, { db with paid_balances := bumpPaid db.paid_balances uid n })
  else
    (false, db)

/-- Embeds the normalization in `GiftCardManager.validate_code`
(`code.upper().replace("-", "")`): uppercase every character, then drop
every dash. -/
def normalizeCode (code : String) : String :=
  String.mk ((code.toList.map Char.toUpper).filter (fun c => c ≠ '-'))

/-- First card whose `code` column equals the given normalized code
(embeds the backend `select` returning `result[0]`). -/
def findCard : List GiftCard → String → Option GiftCard
  | [], _ => none
  | c :: rest, code => if c.code = code then some c else findCard rest code

/-- Embeds `GiftCardManager.validate_code`: normalize, reject any code whose
normalized form is not exactly 12 characters, otherwise look the card up. -/
def validate_code (db : LedgerDb) (code : String) : Option GiftCard :=
  let n := normalizeCode code
  if n.length ≠ 12 then none else findCard db.gift_cards n

/-- Embeds the backend `update("gift_cards", code-filter, patch)` issued by
`redeem_code`: every card whose code matches is marked redeemed and stamped. -/
def markRedeemed (cards : List GiftCard) (code : String) (uid : Int) (now : Int) :
    List GiftCard :=
  cards.map (fun c =>
    if c.code = code then
      { c with is_redeemed := true, redeemed_by := some uid, redeemed_at := some now }
    else c)

/-- Embeds `GiftCardManager.redeem_code`: validate the code, reject an
already-redeemed card, credit the paid searches, mark the card redeemed and
append one redemption record.  Returns the `(success, message)` pair of the
source together with the updated database state. -/
def redeem_code (db : LedgerDb) (now : Int) (telegram_id : Int) (code : String) :
    (Bool × String) × LedgerDb :=
  match validate_code db code with
  | none => ((false, "Code not found"), db)
  | some card =>
    if card.is_redeemed then
      ((false, "Card already redeemed: " ++ optTimeStr card.redeemed_at), db)
    else
      let amount := card.searches_amount
      match add_paid_searches db telegram_id amount with
      | (false, db1) => ((false, "Error adding searches"), db1)
      | (true, db1) =>
        let db2 := { db1 with gift_cards := markRedeemed db1.gift_cards card.code telegram_id now }
        let db3 := { db2 with
          redemptions := db2.redemptions ++
            [⟨telegram_id, some card.id, amount, card.code, now⟩] }
        ((true, "Gift card activated: +" ++ toString amount ++ " searches!"), db3)

/- ## Search provider polling loop (`src/facecheck_client.py`) -/

/-- Embeds one HTTP response of the `POST /search` polling loop: the HTTP
status, the decoded JSON fields read by the loop (`error`, `progress`) and an
opaque tag standing for the rest of the payload. -/
structure PollResponse where
  status : Nat
  error : Option String
  progress : Option Int
  tag : Nat
deriving DecidableEq

/-- Result of the polling loop in `FaceCheckClient.search`. -/
inductive PollResult where
  /-- The loop executed `return None` because the HTTP status was not 200. -/
  | httpNone : PollResult
  /-- The loop returned the provider-reported error message. -/
  | providerError (msg : String) : PollResult
  /-- The loop returned the full response after progress reached 100. -/
  | done (r : PollResponse) : PollResult
  /-- The supplied responses were exhausted with the loop still polling,
  after sleeping for the given number of seconds in total. -/
  | stillPolling (slept : Nat) : PollResult
deriving DecidableEq

/-- Python truthiness of `progress and progress >= 100`: the progress field
must be present, nonzero and at least 100. -/
def progressDone : Option Int → Bool
  | none => false
  | some p => p ≠ 0 && 100 ≤ p

/-- Embeds the `while True` body of `FaceCheckClient.search` over an explicit
list of provider responses: a non-200 status returns `None`, a truthy `error`
field returns the provider error, progress at least 100 returns the full
response, and anything else sleeps 2 seconds and retries.  The accumulator
counts the seconds slept so far. -/
def searchLoop : List PollResponse → Nat → PollResult
  | [], slept => .stillPolling slept
  | r :: rest, slept =>
    if r.status ≠ 200 then .httpNone
    else if strTruthy r.error then .providerError (r.error.getD "")
    else if progressDone r.progress then .done r
    else searchLoop rest (slept + 2)

/-- Embeds `FaceCheckClient.search` applied to a stream of responses. -/
def facecheck_search (responses : List PollResponse) : PollResult :=
  searchLoop responses 0

/-- Parameters accepted by `FaceCheckClient.find_face`
(`src/facecheck_client.py` line 64): `image_bytes` and `demo` only. -/
def find_face_accepted_params : List String := ["image_bytes", "demo"]

/-- Keyword arguments passed to `facecheck.find_face` at its call sites in
`execute_paid_search` and `execute_free_search` (`src/bot.py` lines 659
and 784). -/
def find_face_call_kwargs : List String := ["demo", "on_progress"]

/-- A Python keyword-argument call is well-formed only when every keyword
passed names an accepted parameter; otherwise the call raises `TypeError`. -/
def kwargsAccepted (params kwargs : List String) : Bool :=
  kwargs.all (fun k => params.contains k)

/- ## Bot state and handlers (`src/bot.py`) -/

/-- A result item (`output.items` entry): the fields the bot reads are the
match score and the source URL. -/
structure Face where
  score : Nat
  url : String
deriving DecidableEq

/-- The fields of a completed `find_face` response that the bot reads. -/
structure SearchData where
  id_search : Option String
  error : Option String
  items : List Face
deriving DecidableEq

/-- An entry of the module-level `pending_results` dictionary: the search
payload plus the `_created_at` timestamp and `_unlocked` flag the bot adds. -/
structure StoredResult where
  data : SearchData
  created_at : Int
  unlocked : Bool
deriving DecidableEq

/-- Modelled from the spec: a row of the `payments` table as appended by
`db.record_payment(user_id, stars, searches_granted, payment_id)` of the
missing `src/database.py` — an append-only log write. -/
structure PaymentRecord where
  user_id : Int
  stars : Nat
  searches_granted : Nat
  payment_id : String
deriving DecidableEq

/-- The module-level mutable state of `src/bot.py` together with the
append-only payment log of the backend.  `pending_reminders` holds the
search ids whose reminder task is scheduled and not yet canceled. -/
structure BotState where
  pending_results : List (String × StoredResult)
  pending_photos : List (Int × Nat)
  last_search_by_user : List (Int × String)
  pending_reminders : List String
  payments : List PaymentRecord
deriving DecidableEq

/-- Results expiration time in seconds (`RESULTS_EXPIRATION_SECONDS = 30 * 60`). -/
def RESULTS_EXPIRATION_SECONDS : Int := 30 * 60

/-- Free search shows only this many results (`FREE_RESULTS_COUNT = 3`). -/
def FREE_RESULTS_COUNT : Nat := 3

/-- Embeds `is_result_expired`: true when the search id is absent from
`pending_results`, or when the elapsed time since `_created_at` strictly
exceeds `RESULTS_EXPIRATION_SECONDS`. -/
def is_result_expired (st : BotState) (now : Int) (search_id : String) : Bool :=
  match assocFind st.pending_results search_id with
  | none => true
  | some r => RESULTS_EXPIRATION_SECONDS < now - r.created_at

/-- Embeds the store step of the search handlers: insert the payload into
`pending_results` with `_created_at = now` and `_unlocked` unset, and track
the search id in `last_search_by_user`. -/
def store_result (st : BotState) (uid : Int) (search_id : String) (data : SearchData)
    (now : Int) : BotState :=
  { st with
    pending_results := assocSet st.pending_results search_id ⟨data, now, false⟩,
    last_search_by_user := assocSet st.last_search_by_user uid search_id }

/-- Modelled from the spec: `db.record_payment` appends one payment record. -/
def record_payment (st : BotState) (uid : Int) (stars : Nat) (granted : Nat)
    (pid : String) : BotState :=
  { st with payments := st.payments ++ [⟨uid, stars, granted, pid⟩] }

/-- Embeds the check performed by `schedule_expiry_reminder` when the timer
fires: the notification is sent only when the task was not canceled
(the id is still in `pending_reminders`), the results still exist, and the
session is not marked `_unlocked`. -/
def reminder_would_send (st : BotState) (search_id : String) : Bool :=
  st.pending_reminders.contains search_id &&
    match assocFind st.pending_results search_id with
    | none => false
    | some r => !r.unlocked

/-- The two unlock invoice payloads handled by `handle_successful_payment`:
`unlock_all_SEARCHID` and `unlock_SEARCHID_INDEX`. -/
inductive UnlockPayload where
  | all (search_id : String) : UnlockPayload
  | single (search_id : String) (idx : Nat) : UnlockPayload
deriving DecidableEq

/-- The search id an unlock payload refers to. -/
def UnlockPayload.sid : UnlockPayload → String
  | .all s => s
  | .single s _ => s

/-- Observable outcome of processing an unlock payment: the new state, the
faces whose source URL was sent to the user, and whether the expired-results
notice was shown instead. -/
structure PaymentOutcome where
  st : BotState
  revealed : List Face
  expired_notice : Bool
deriving DecidableEq

/-- Embeds the `unlock_all_` and `unlock_` branches of
`handle_successful_payment` (`src/bot.py` lines 572-640).  The unlock-all
branch first cancels any pending reminder for the search id, then, when the
session exists and is not expired, marks it `_unlocked` and reveals the
first 10 items with their URLs; otherwise it shows the expired notice.  The
single-item branch reveals one item with its URL when the session is live
and the index is in range; it touches neither the reminder map nor the
`_unlocked` flag.  Both branches end with `record_payment(user, stars, 0,
payment_id)` in every case. -/
def handle_unlock_payment (st : BotState) (now : Int) (uid : Int) (stars : Nat)
    (pid : String) : UnlockPayload → PaymentOutcome
  | .all sid =>
    let st1 := { st with
      pending_reminders := st.pending_reminders.filter (fun s => s ≠ sid) }
    match assocFind st1.pending_results sid with
    | some r =>
      if is_result_expired st1 now sid then
        ⟨record_payment st1 uid stars 0 pid, [], true⟩
      else
        let st2 := { st1 with
          pending_results := assocSet st1.pending_results sid { r with unlocked := true } }
        ⟨record_payment st2 uid stars 0 pid, r.data.items.take 10, false⟩
    | none => ⟨record_payment st1 uid stars 0 pid, [], true⟩
  | .single sid idx =>
    match assocFind st.pending_results sid with
    | some r =>
      if is_result_expired st now sid then
        ⟨record_payment st uid stars 0 pid, [], true⟩
      else
        match r.data.items[idx]? with
        | some f => ⟨record_payment st uid stars 0 pid, [f], false⟩
        | none => ⟨record_payment st uid stars 0 pid, [], false⟩
    | none => ⟨record_payment st uid stars 0 pid, [], true⟩

/-- Per-user search balances as returned by `db.get_user_credits`. -/
structure Credits where
  free_searches : Nat
  paid_searches : Nat
deriving DecidableEq

/-- Modelled from the spec: `db.use_search(user)` of the missing
`src/database.py` decrements the free balance first if it is positive, else
decrements the paid balance, and fails when both are zero.  Returns
`(success, was_free)` with the updated balances. -/
def use_search (c : Credits) : (Bool × Bool) × Credits :=
  if 0 < c.free_searches then
    ((true, true), { c with free_searches := c.free_searches - 1 })
  else if 0 < c.paid_searches then
    ((true, false), { c with paid_searches := c.paid_searches - 1 })
  else
    ((false, false), c)

/-- Python `result.get("id_search") or str(message.message_id)`: the
fallback is used when the field is absent or an empty string. -/
def orElseStr (o : Option String) (fallback : String) : String :=
  match o with
  | none => fallback
  | some s => if s = "" then fallback else s

/-- One result item as shown to the user: the score is always in the
caption; `url_shown` is the source URL when it was included and `none` when
the caption withholds it (free tier shows a locked-link placeholder). -/
structure ShownItem where
  score : Nat
  url_shown : Option String
deriving DecidableEq

/-- Observable outcome of `execute_free_search`: the new bot state, the
balances after the handler ran, how many times `db.use_search` was invoked,
the items shown to the user, how many reminder tasks were scheduled, and
whether the handler stopped at the error path. -/
structure FreeSearchOutcome where
  st : BotState
  credits : Credits
  use_search_count : Nat
  shown : List ShownItem
  reminders_scheduled : Nat
  failed : Bool
deriving DecidableEq

/-- Embeds `execute_free_search` (`src/bot.py` lines 768-889): stop on a
missing result or a truthy error field; otherwise call `db.use_search` once,
stop if there are no items, else store the result keyed by the provider id
(or the message id as fallback), show the first `FREE_RESULTS_COUNT` items
with their URLs withheld, and schedule exactly one expiry reminder task. -/
def execute_free_search (st : BotState) (now : Int) (uid : Int) (message_id : Nat)
    (c : Credits) (result : Option SearchData) : FreeSearchOutcome :=
  match result with
  | none => ⟨st, c, 0, [], 0, true⟩
  | some data =>
    if strTruthy data.error then ⟨st, c, 0, [], 0, true⟩
    else
      let c1 := (use_search c).2
      if data.items = [] then ⟨st, c1, 1, [], 0, false⟩
      else
        let sid := orElseStr data.id_search (toString message_id)
        let st1 := store_result st uid sid data now
        let st2 := { st1 with
          pending_reminders :=
            if st1.pending_reminders.contains sid then st1.pending_reminders
            else sid :: st1.pending_reminders }
        ⟨st2, c1, 1,
         (data.items.take FREE_RESULTS_COUNT).map (fun f => ⟨f.score, none⟩),
         1, false⟩

/-- The two ways `handle_photo` can proceed after reading the balances. -/
inductive PhotoOutcome where
  /-- `execute_free_search` was invoked (the search runs immediately). -/
  | freeSearchRun : PhotoOutcome
  /-- A payment invoice was emitted and the photo bytes were held. -/
  | invoiceSent : PhotoOutcome
deriving DecidableEq

/-- Embeds the branch decision of `handle_photo` (`src/bot.py` lines
730-765): the handler reads only `free_searches` from the balances; when it
is positive the free search runs immediately, otherwise the photo bytes are
stored in `pending_photos` keyed by the user id and an invoice is sent. -/
def handle_photo (c : Credits) (uid : Int) (photo : Nat) (st : BotState) :
    PhotoOutcome × BotState :=
  if 0 < c.free_searches then
    (.freeSearchRun, st)
  else
    (.invoiceSent, { st with pending_photos := assocSet st.pending_photos uid photo })

/- ## Concrete sample data for witnesses and counterexamples -/

/-- A sample result item. -/
def sampleFace : Face := ⟨90, "http://example.com/profile"⟩

/-- A sample completed search payload with one item and no error. -/
def sampleData : SearchData := ⟨some "S", none, [sampleFace]⟩

/-- A bot state holding one search session stored at time 0 with a pending
reminder and an empty payment log. -/
def sampleState : BotState := ⟨[("S", ⟨sampleData, 0, false⟩)], [], [], ["S"], []⟩

/-- Four sample result items. -/
def sampleFaces4 : List Face := [⟨90, "u1"⟩, ⟨80, "u2"⟩, ⟨70, "u3"⟩, ⟨60, "u4"⟩]

/-- A sample completed search payload with four items and no error. -/
def sampleData4 : SearchData := ⟨some "S4", none, sampleFaces4⟩

/-- A sample ledger holding one unredeemed gift card worth 5 searches, a
user balance of 2 paid searches, and a working backend write. -/
def sampleLedger : LedgerDb :=
  ⟨[(42, 2)], [⟨7, "AB12CD34EF56", 5, false, none, none⟩], [], true⟩

/-- The same ledger with the backend credit write failing. -/
def sampleLedgerDown : LedgerDb :=
  ⟨[(42, 2)], [⟨7, "AB12CD34EF56", 5, false, none, none⟩], [], false⟩

/- ## Helper lemmas -/

theorem assocFind_assocSet_self {α β : Type} [DecidableEq α] (l : List (α × β))
    (k : α) (v : β) : assocFind (assocSet l k v) k = some v := by
  induction l with
  | nil => simp [assocSet, assocFind]
  | cons hd tl ih =>
    obtain ⟨k', w⟩ := hd
    by_cases hk : k' = k <;> simp [assocSet, assocFind, hk, ih]

theorem bumpPaid_getD (l : List (Int × Nat)) (uid : Int) (n : Nat) :
    (assocFind (bumpPaid l uid n) uid).getD 0 = (assocFind l uid).getD 0 + n := by
  induction l with
  | nil => simp [bumpPaid, assocFind]
  | cons hd tl ih =>
    obtain ⟨k, v⟩ := hd
    by_cases hk : k = uid <;> simp [bumpPaid, assocFind, hk, ih]

theorem findCard_code (cards : List GiftCard) (code : String) (c : GiftCard)
    (h : findCard cards code = some c) : c.code = code := by
  induction cards with
  | nil => simp [findCard] at h
  | cons hd tl ih =>
    by_cases hx : hd.code = code
    · simp [findCard, hx] at h
      rw [← h, hx]
    · simp [findCard, hx] at h
      exact ih h

theorem findCard_markRedeemed (cards : List GiftCard) (code : String) (uid : Int)
    (now : Int) (c : GiftCard) (h : findCard cards code = some c) :
    findCard (markRedeemed cards code uid now) code =
      some { c with is_redeemed := true, redeemed_by := some uid, redeemed_at := some now } := by
  induction cards with
  | nil => simp [findCard] at h
  | cons hd tl ih =>
    by_cases hx : hd.code = code
    · simp only [findCard, hx, if_true] at h
      obtain rfl : hd = c := by injection h
      simp [markRedeemed, findCard, hx]
    · simp only [findCard, hx, if_false] at h
      simp only [markRedeemed, List.map_cons, findCard, hx, if_false]
      simpa [markRedeemed] using ih h

theorem contains_filter_ne (l : List String) (a : String) :
    (l.filter (fun s => s ≠ a)).contains a = false := by
  induction l with
  | nil => rfl
  | cons x xs ih =>
    by_cases hx : x = a
    · simp [List.filter, hx, ih]
    · simp [List.filter, hx, ih, List.contains, Ne.symm hx]

/-- Unfolds a `redeem_code` run that finds an already-redeemed card. -/
theorem redeem_code_already (db : LedgerDb) (now uid : Int) (code : String)
    (card : GiftCard) (hfind : validate_code db code = some card)
    (hred : card.is_redeemed = true) :
    redeem_code db now uid code =
      ((false, "Card already redeemed: " ++ optTimeStr card.redeemed_at), db) := by
  simp [redeem_code, hfind, hred]

/-- Unfolds a successful `redeem_code` run: the card exists, is unredeemed,
and the backend credit write succeeds. -/
theorem redeem_code_success_eq (db : LedgerDb) (now uid : Int) (code : String)
    (card : GiftCard) (hfind : validate_code db code = some card)
    (hun : card.is_redeemed = false) (hok : db.add_paid_ok = true) :
    redeem_code db now uid code =
      ((true, "Gift card activated: +" ++ toString card.searches_amount ++ " searches!"),
       { paid_balances := bumpPaid db.paid_balances uid card.searches_amount,
         gift_cards := markRedeemed db.gift_cards card.code uid now,
         redemptions := db.redemptions ++
           [⟨uid, some card.id, card.searches_amount, card.code, now⟩],
         add_paid_ok := db.add_paid_ok }) := by
  simp [redeem_code, hfind, hun, add_paid_searches, hok]

/-- A run of the polling loop over non-terminal responses (status 200, falsy
error, progress below 100) consumes them all, sleeping 2 seconds each. -/
theorem searchLoop_nonterminal (resps : List PollResponse) (slept : Nat)
    (hall : ∀ x ∈ resps,
      x.status = 200 ∧ strTruthy x.error = false ∧ progressDone x.progress = false) :
    searchLoop resps slept = .stillPolling (slept + 2 * resps.length) := by
  induction resps generalizing slept with
  | nil => simp [searchLoop]
  | cons r rest ih =>
    obtain ⟨h1, h2, h3⟩ := hall r (by simp)
    have hrec := ih (slept + 2) (fun x hx => hall x (by simp [hx]))
    have harg : slept + 2 + 2 * rest.length = slept + 2 * (r :: rest).length := by
      simp [List.length_cons]
      ring
    simp [searchLoop, h1, h2, h3, hrec, harg]

/-- Appending one response after non-terminal ones: the loop reaches the
final response having slept 2 seconds per earlier response. -/
theorem searchLoop_append (resps : List PollResponse) (final : PollResponse)
    (slept : Nat)
    (hall : ∀ x ∈ resps,
      x.status = 200 ∧ strTruthy x.error = false ∧ progressDone x.progress = false) :
    searchLoop (resps ++ [final]) slept = searchLoop [final] (slept + 2 * resps.length) := by
  induction resps generalizing slept with
  | nil => simp [searchLoop]
  | cons r rest ih =>
    obtain ⟨h1, h2, h3⟩ := hall r (by simp)
    have hrec := ih (slept + 2) (fun x hx => hall x (by simp [hx]))
    have harg : slept + 2 + 2 * rest.length = slept + 2 * (r :: rest).length := by
      simp [List.length_cons]
      ring
    rw [List.cons_append]
    rw [show searchLoop (r :: (rest ++ [final])) slept = searchLoop (rest ++ [final]) (slept + 2)
      from by simp [searchLoop, h1, h2, h3]]
    rw [hrec, harg]

/- ## Claim theorems -/

/-- C1 (code-bug evidence): `handle_photo` reads only the free balance.  For
a user with zero free searches and any positive paid balance, the handler
still emits the payment invoice and holds the photo bytes keyed by the user
id, instead of running the search immediately as the spec requires when
`paid_searches > 0`. -/
theorem handle_photo_ignores_paid_balance (paid : Nat) (uid : Int) (photo : Nat)
    (st : BotState) :
    (handle_photo ⟨0, paid⟩ uid photo st).1 = .invoiceSent ∧
    assocFind (handle_photo ⟨0, paid⟩ uid photo st).2.pending_photos uid = some photo := by
  constructor
  · simp [handle_photo]
  · simp [handle_photo, assocFind_assocSet_self]

/-- C3 (code-bug evidence): the call sites in `src/bot.py` pass the keyword
argument `on_progress` to `facecheck.find_face`, but `find_face` in
`src/facecheck_client.py` accepts only `image_bytes` and `demo` — the call
is ill-formed (it raises `TypeError` in Python), and the polling loop of the
client defines and invokes no progress callback at all. -/
theorem find_face_rejects_progress_callback :
    kwargsAccepted find_face_accepted_params find_face_call_kwargs = false := by
  decide

/-- C4 counterexample: a response that carries no error field and no
progress of 100 — an HTTP 500 — does not cause a sleep-and-retry; the loop
terminates at once with `None`, never reaching the following progress-100
response.  This refutes the claim that every response other than a
provider-error or progress-100 response leads to a retry, and that the loop
can only terminate through those two cases. -/
theorem search_http_500_terminates :
    facecheck_search [⟨500, none, none, 0⟩, ⟨200, none, some 100, 1⟩] = .httpNone := by
  decide

/-- C4 (amended): over HTTP-200 responses the polling loop is unbounded with
a fixed 2-second sleep per retry — any number of 200 responses with a falsy
error and progress below 100 leaves the loop still polling with no cap,
backoff or jitter; a truthy error field terminates it with the provider
message, progress at least 100 terminates it with the full response, and a
non-200 HTTP response terminates it with `None`. -/
theorem facecheck_search_polling (resps : List PollResponse) (final : PollResponse)
    (hall : ∀ x ∈ resps,
      x.status = 200 ∧ strTruthy x.error = false ∧ progressDone x.progress = false) :
    facecheck_search resps = .stillPolling (2 * resps.length) ∧
    (final.status = 200 → strTruthy final.error = true →
      facecheck_search (resps ++ [final]) = .providerError (final.error.getD "")) ∧
    (final.status = 200 → strTruthy final.error = false → progressDone final.progress = true →
      facecheck_search (resps ++ [final]) = .done final) ∧
    (final.status ≠ 200 → facecheck_search (resps ++ [final]) = .httpNone) := by
  refine ⟨?_, ?_, ?_, ?_⟩
  · simpa using searchLoop_nonterminal resps 0 hall
  · intro h1 h2
    rw [facecheck_search, searchLoop_append resps final 0 hall]
    simp [searchLoop, h1, h2]
  · intro h1 h2 h3
    rw [facecheck_search, searchLoop_append resps final 0 hall]
    simp [searchLoop, h1, h2, h3]
  · intro h1
    rw [facecheck_search, searchLoop_append resps final 0 hall]
    simp [searchLoop, h1]

/-- Witness for C4: one non-terminal response (progress 50) leaves the loop
polling after one 2-second sleep, and a following provider error ends it
with the provider message. -/
theorem facecheck_search_polling_witness :
    facecheck_search [⟨200, none, some 50, 0⟩] = .stillPolling 2 ∧
    facecheck_search [⟨200, none, some 50, 0⟩, ⟨200, some "No faces found", none, 1⟩] =
      .providerError "No faces found" := by
  have h := facecheck_search_polling [⟨200, none, some 50, 0⟩]
    ⟨200, some "No faces found", none, 1⟩ (by decide)
  exact ⟨h.1, h.2.1 rfl (by decide)⟩

/-- C9: `is_result_expired` is true exactly when the search id is absent
from the cache or more than `RESULTS_EXPIRATION_SECONDS = 1800` seconds have
elapsed since `_created_at`; it is false immediately after `store_result`
and true once time advances past the TTL with no interaction. -/
theorem is_result_expired_spec (st : BotState) (now later : Int) (sid : String)
    (uid : Int) (data : SearchData) (hlater : (1800 : Int) < later - now) :
    (is_result_expired st now sid = true ↔
      assocFind st.pending_results sid = none ∨
        ∃ r, assocFind st.pending_results sid = some r ∧
          (1800 : Int) < now - r.created_at) ∧
    is_result_expired (store_result st uid sid data now) now sid = false ∧
    is_result_expired (store_result st uid sid data now) later sid = true ∧
    RESULTS_EXPIRATION_SECONDS = 1800 := by
  have hconst : RESULTS_EXPIRATION_SECONDS = 1800 := by norm_num [RESULTS_EXPIRATION_SECONDS]
  refine ⟨?_, ?_, ?_, hconst⟩
  · cases h : assocFind st.pending_results sid with
    | none => simp [is_result_expired, h]
    | some r => simp [is_result_expired, h, hconst]
  · simp [is_result_expired, store_result, assocFind_assocSet_self, hconst]
  · simp [is_result_expired, store_result, assocFind_assocSet_self, hconst]
    omega

/-- Witness for C9: a result stored at time 0 is not expired at time 0 and
is expired at time 2000. -/
theorem is_result_expired_spec_witness :
    (1800 : Int) < 2000 - 0 ∧
    is_result_expired (store_result ⟨[], [], [], [], []⟩ 1 "S" ⟨some "S", none, []⟩ 0)
      0 "S" = false ∧
    is_result_expired (store_result ⟨[], [], [], [], []⟩ 1 "S" ⟨some "S", none, []⟩ 0)
      2000 "S" = true := by
  have h := is_result_expired_spec ⟨[], [], [], [], []⟩ 0 2000 "S" 1 ⟨some "S", none, []⟩
    (by decide)
  exact ⟨by decide, h.2.1, h.2.2.1⟩

/-- C5: for every unlock payment — single-item or unlock-all — whose
referenced session is expired or absent at the moment of processing, a
payment record is still appended via `record_payment`, and no item of the
underlying result payload is revealed to the user. -/
theorem unlock_payment_expired_still_logged (st : BotState) (now : Int) (uid : Int)
    (stars : Nat) (pid : String) (p : UnlockPayload)
    (hexp : is_result_expired st now p.sid = true) :
    (handle_unlock_payment st now uid stars pid p).revealed = [] ∧
    (handle_unlock_payment st now uid stars pid p).st.payments =
      st.payments ++ [⟨uid, stars, 0, pid⟩] := by
  cases p with
  | all sid =>
    simp only [UnlockPayload.sid] at hexp
    cases h : assocFind st.pending_results sid with
    | none => simp [handle_unlock_payment, h, record_payment]
    | some r =>
      simp only [is_result_expired, h, decide_eq_true_eq] at hexp
      simp [handle_unlock_payment, is_result_expired, h, hexp, record_payment]
  | single sid idx =>
    simp only [UnlockPayload.sid] at hexp
    cases h : assocFind st.pending_results sid with
    | none => simp [handle_unlock_payment, h, record_payment]
    | some r =>
      simp only [is_result_expired, h, decide_eq_true_eq] at hexp
      simp [handle_unlock_payment, is_result_expired, h, hexp, record_payment]

/-- Witness for C5: an unlock-all payment processed at time 2000 for a
session stored at time 0 (expired) reveals nothing and still appends the
payment record. -/
theorem unlock_payment_expired_still_logged_witness :
    is_result_expired sampleState 2000 (UnlockPayload.all "S").sid = true ∧
    (handle_unlock_payment sampleState 2000 42 50 "pay9" (.all "S")).revealed = [] ∧
    (handle_unlock_payment sampleState 2000 42 50 "pay9" (.all "S")).st.payments =
      sampleState.payments ++ [⟨42, 50, 0, "pay9"⟩] := by
  have h := unlock_payment_expired_still_logged sampleState 2000 42 50 "pay9"
    (.all "S") (by decide)
  exact ⟨by decide, h.1, h.2⟩

/-- C6: a free-tier search that completes with at least 4 items shows
exactly 3 of them (`FREE_RESULTS_COUNT`), every caption withholds the source
URL, `db.use_search` is invoked exactly once — decrementing the free balance
by one and leaving the paid balance untouched — and exactly one expiry
reminder task is scheduled. -/
theorem free_search_truncation (st : BotState) (now : Int) (uid : Int) (mid : Nat)
    (c : Credits) (data : SearchData)
    (herr : strTruthy data.error = false)
    (hlen : 4 ≤ data.items.length)
    (hfree : 0 < c.free_searches) :
    (execute_free_search st now uid mid c (some data)).shown.length = 3 ∧
    ((execute_free_search st now uid mid c (some data)).shown.all
      (fun s => s.url_shown.isNone)) = true ∧
    (execute_free_search st now uid mid c (some data)).use_search_count = 1 ∧
    (execute_free_search st now uid mid c (some data)).credits.free_searches =
      c.free_searches - 1 ∧
    (execute_free_search st now uid mid c (some data)).credits.paid_searches =
      c.paid_searches ∧
    (execute_free_search st now uid mid c (some data)).reminders_scheduled = 1 := by
  have hne : data.items ≠ [] := by
    intro h0
    rw [h0] at hlen
    simp at hlen
  have huse : (use_search c).2 = { c with free_searches := c.free_searches - 1 } := by
    simp [use_search, hfree]
  have hmin : min FREE_RESULTS_COUNT data.items.length = 3 := by
    simp only [FREE_RESULTS_COUNT]
    omega
  have hall : ∀ x ∈ (data.items.map
      (fun f => (⟨f.score, none⟩ : ShownItem))).take FREE_RESULTS_COUNT,
      x.url_shown = none := by
    intro x hx
    obtain ⟨f, hf, rfl⟩ := List.mem_map.mp (List.mem_of_mem_take hx)
    rfl
  refine ⟨?_, ?_, ?_, ?_, ?_, ?_⟩ <;>
    simp [execute_free_search, herr, hne, huse, hmin, List.all_eq_true]
  exact hall

/-- Witness for C6: with one free search and a four-item result, the free
flow shows 3 items, uses the single free credit, and schedules one
reminder. -/
theorem free_search_truncation_witness :
    strTruthy sampleData4.error = false ∧
    4 ≤ sampleData4.items.length ∧
    (execute_free_search ⟨[], [], [], [], []⟩ 0 42 777 ⟨1, 0⟩ (some sampleData4)).shown.length = 3 ∧
    (execute_free_search ⟨[], [], [], [], []⟩ 0 42 777 ⟨1, 0⟩ (some sampleData4)).use_search_count = 1 ∧
    (execute_free_search ⟨[], [], [], [], []⟩ 0 42 777 ⟨1, 0⟩ (some sampleData4)).credits.free_searches = 0 ∧
    (execute_free_search ⟨[], [], [], [], []⟩ 0 42 777 ⟨1, 0⟩ (some sampleData4)).reminders_scheduled = 1 := by
  have h := free_search_truncation ⟨[], [], [], [], []⟩ 0 42 777 ⟨1, 0⟩ sampleData4
    (by decide) (by decide) (by decide)
  exact ⟨by decide, by decide, h.1, h.2.2.1, h.2.2.2.1, h.2.2.2.2.2⟩

/-- C7 counterexample: a qualifying single-item unlock payment for a live
session reveals the item, yet afterwards the reminder task is still pending,
the session is still not marked unlocked, and the reminder would still send
— refuting the claim that the reminder is canceled whenever a session is
unlocked via either the single-item or the unlock-all path. -/
theorem single_unlock_leaves_reminder_pending :
    (handle_unlock_payment sampleState 100 42 25 "pay1" (.single "S" 0)).revealed =
      [sampleFace] ∧
    (handle_unlock_payment sampleState 100 42 25 "pay1" (.single "S" 0)).st.pending_reminders =
      ["S"] ∧
    assocFind (handle_unlock_payment sampleState 100 42 25 "pay1"
      (.single "S" 0)).st.pending_results "S" = some ⟨sampleData, 0, false⟩ ∧
    reminder_would_send (handle_unlock_payment sampleState 100 42 25 "pay1"
      (.single "S" 0)).st "S" = true := by
  decide

/-- C7 (amended): the reminder task is canceled exactly on the unlock-all
payment path — the only path that marks the session unlocked — so after an
unlock-all payment the reminder can no longer send; a single-item unlock
leaves the pending reminders untouched. -/
theorem reminder_canceled_only_on_unlock_all (st : BotState) (now : Int) (uid : Int)
    (stars : Nat) (pid sid : String) (idx : Nat) :
    ((handle_unlock_payment st now uid stars pid (.all sid)).st.pending_reminders.contains sid) =
      false ∧
    reminder_would_send (handle_unlock_payment st now uid stars pid (.all sid)).st sid =
      false ∧
    (handle_unlock_payment st now uid stars pid (.single sid idx)).st.pending_reminders =
      st.pending_reminders := by
  have hrem : (handle_unlock_payment st now uid stars pid (.all sid)).st.pending_reminders =
      st.pending_reminders.filter (fun s => s ≠ sid) := by
    cases h : assocFind st.pending_results sid with
    | none => simp [handle_unlock_payment, h, record_payment]
    | some r =>
      simp only [handle_unlock_payment, h, record_payment]
      split <;> rfl
  refine ⟨?_, ?_, ?_⟩
  · rw [hrem]
    exact contains_filter_ne st.pending_reminders sid
  · simp [reminder_would_send, hrem, contains_filter_ne]
  · cases h : assocFind st.pending_results sid with
    | none => simp [handle_unlock_payment, h, record_payment]
    | some r =>
      simp only [handle_unlock_payment, h, record_payment]
      split
      · rfl
      · split <;> rfl

/-- C2: redeeming an existing unredeemed gift card succeeds, credits the
searches to the paid balance, marks the card redeemed with the redeemer and
the timestamp stamped, and appends exactly one redemption record; an
immediate second redemption of the same code fails with the
already-redeemed error and changes nothing — never two successes. -/
theorem redeem_code_double_redeem (db : LedgerDb) (now1 now2 uid : Int)
    (code : String) (card : GiftCard)
    (hfind : validate_code db code = some card)
    (hun : card.is_redeemed = false)
    (hok : db.add_paid_ok = true) :
    ((redeem_code db now1 uid code).1).1 = true ∧
    paidBalance (redeem_code db now1 uid code).2 uid =
      paidBalance db uid + card.searches_amount ∧
    (∀ c ∈ (redeem_code db now1 uid code).2.gift_cards, c.code = card.code →
      c.is_redeemed = true ∧ c.redeemed_by = some uid ∧ c.redeemed_at = some now1) ∧
    (redeem_code db now1 uid code).2.redemptions =
      db.redemptions ++ [⟨uid, some card.id, card.searches_amount, card.code, now1⟩] ∧
    (redeem_code (redeem_code db now1 uid code).2 now2 uid code).1 =
      (false, "Card already redeemed: " ++ optTimeStr (some now1)) ∧
    (redeem_code (redeem_code db now1 uid code).2 now2 uid code).2 =
      (redeem_code db now1 uid code).2 := by
  have hrun := redeem_code_success_eq db now1 uid code card hfind hun hok
  have hfc : findCard db.gift_cards (normalizeCode code) = some card ∧
      (normalizeCode code).length = 12 := by
    by_cases hl : (normalizeCode code).length = 12
    · refine ⟨?_, hl⟩
      simpa [validate_code, hl] using hfind
    · simp [validate_code, hl] at hfind
  have hcode : card.code = normalizeCode code := findCard_code _ _ _ hfc.1
  have hmark := findCard_markRedeemed db.gift_cards (normalizeCode code) uid now1 card hfc.1
  have hval2 : validate_code (redeem_code db now1 uid code).2 code =
      some { card with
        is_redeemed := true
        redeemed_by := some uid
        redeemed_at := some now1 } := by
    rw [hrun]
    simp [validate_code, hfc.2, hcode, hmark]
  refine ⟨?_, ?_, ?_, ?_, ?_, ?_⟩
  · rw [hrun]
  · rw [hrun]
    simp [paidBalance, bumpPaid_getD]
  · rw [hrun]
    intro c hc hcc
    simp only [markRedeemed, List.mem_map] at hc
    obtain ⟨x, hx, rfl⟩ := hc
    by_cases hxc : x.code = card.code
    · simp [hxc, hcode]
    · rw [if_neg hxc] at hcc
      exact absurd hcc hxc
  · rw [hrun]
  · have h2 := redeem_code_already (redeem_code db now1 uid code).2 now2 uid code _
      hval2 rfl
    rw [h2]
  · have h2 := redeem_code_already (redeem_code db now1 uid code).2 now2 uid code _
      hval2 rfl
    rw [h2]

/-- Witness for C2: the sample card worth 5 searches is redeemed by user 42
with balance 2; the balance becomes 7, one redemption record is appended,
and a second redemption fails with the already-redeemed error. -/
theorem redeem_code_double_redeem_witness :
    validate_code sampleLedger "ab12-cd34-ef56" =
      some ⟨7, "AB12CD34EF56", 5, false, none, none⟩ ∧
    ((redeem_code sampleLedger 100 42 "ab12-cd34-ef56").1).1 = true ∧
    paidBalance (redeem_code sampleLedger 100 42 "ab12-cd34-ef56").2 42 = 7 ∧
    (redeem_code sampleLedger 100 42 "ab12-cd34-ef56").2.redemptions =
      [⟨42, some 7, 5, "AB12CD34EF56", 100⟩] ∧
    (redeem_code (redeem_code sampleLedger 100 42 "ab12-cd34-ef56").2 200 42
      "ab12-cd34-ef56").1 = (false, "Card already redeemed: 100") := by
  have h := redeem_code_double_redeem sampleLedger 100 200 42 "ab12-cd34-ef56"
    ⟨7, "AB12CD34EF56", 5, false, none, none⟩ (by decide) rfl rfl
  refine ⟨by decide, h.1, ?_, ?_, ?_⟩
  · rw [h.2.1]
    decide
  · exact h.2.2.2.1
  · rw [h.2.2.2.2.1]
    decide

/-- C8 counterexample: an input whose normalized form is not 12 characters
produces exactly the same failure — `(False, "Code not found")` — as a
well-formed but absent code; the two runs of `redeem_code` are equal, so the
invalid-format failure is not an error distinct from the not-found one. -/
theorem invalid_format_not_distinct_from_not_found :
    (redeem_code sampleLedger 0 42 "ABC").1 = (false, "Code not found") ∧
    (redeem_code sampleLedger 0 42 "ZZZZ-ZZZZ-ZZZZ").1 = (false, "Code not found") ∧
    redeem_code sampleLedger 0 42 "ABC" = redeem_code sampleLedger 0 42 "ZZZZ-ZZZZ-ZZZZ" := by
  decide

/-- C8 (amended): `redeem_code` sees its input only through the
normalization that strips dashes and uppercases — so a code is accepted with
or without dashes, case-insensitively — and every input whose normalized
form is not exactly 12 characters fails; but the failure is the same
`(False, "Code not found")` given for an absent card, not a distinct
invalid-format error. -/
theorem redeem_code_normalization (db : LedgerDb) (now uid : Int)
    (c1 c2 bad : String)
    (hnorm : normalizeCode c1 = normalizeCode c2)
    (hbad : (normalizeCode bad).length ≠ 12) :
    redeem_code db now uid c1 = redeem_code db now uid c2 ∧
    redeem_code db now uid bad = ((false, "Code not found"), db) ∧
    normalizeCode "ab12-cd34-ef56" = "AB12CD34EF56" := by
  refine ⟨?_, ?_, by decide⟩
  · have hv : validate_code db c1 = validate_code db c2 := by
      simp [validate_code, hnorm]
    unfold redeem_code
    rw [hv]
  · simp [redeem_code, validate_code, hbad]

/-- Witness for C8 (amended): the dashed lowercase form and the bare
uppercase form of the sample code are interchangeable, and the three-letter
input fails with the not-found message, leaving the ledger unchanged. -/
theorem redeem_code_normalization_witness :
    normalizeCode "ab12-cd34-ef56" = normalizeCode "AB12CD34EF56" ∧
    (normalizeCode "ABC").length ≠ 12 ∧
    redeem_code sampleLedger 0 42 "ab12-cd34-ef56" =
      redeem_code sampleLedger 0 42 "AB12CD34EF56" ∧
    redeem_code sampleLedger 0 42 "ABC" = ((false, "Code not found"), sampleLedger) := by
  have h := redeem_code_normalization sampleLedger 0 42 "ab12-cd34-ef56"
    "AB12CD34EF56" "ABC" (by decide) (by decide)
  exact ⟨by decide, by decide, h.1, h.2.1⟩

/-- C10: when the card exists and is unredeemed but the backend credit write
fails, `redeem_code` returns the error and the database — the gift card row,
the balances and the redemption log — is exactly what it was, so the same
code redeems successfully once the backend write works again. -/
theorem redeem_code_credit_write_failure (db : LedgerDb) (now uid : Int)
    (code : String) (card : GiftCard)
    (hfind : validate_code db code = some card)
    (hun : card.is_redeemed = false)
    (hfail : db.add_paid_ok = false) :
    redeem_code db now uid code = ((false, "Error adding searches"), db) ∧
    ((redeem_code { db with add_paid_ok := true } now uid code).1).1 = true := by
  constructor
  · simp [redeem_code, hfind, hun, add_paid_searches, hfail]
  · have hfind2 : validate_code { db with add_paid_ok := true } code = some card := hfind
    rw [redeem_code_success_eq { db with add_paid_ok := true } now uid code card
      hfind2 hun rfl]

/-- Witness for C10: with the backend write failing, redeeming the sample
card reports the error and leaves the ledger untouched; with the write
restored the same code succeeds. -/
theorem redeem_code_credit_write_failure_witness :
    validate_code sampleLedgerDown "AB12CD34EF56" =
      some ⟨7, "AB12CD34EF56", 5, false, none, none⟩ ∧
    redeem_code sampleLedgerDown 0 42 "AB12CD34EF56" =
      ((false, "Error adding searches"), sampleLedgerDown) ∧
    ((redeem_code { sampleLedgerDown with add_paid_ok := true } 0 42
      "AB12CD34EF56").1).1 = true := by
  have h := redeem_code_credit_write_failure sampleLedgerDown 0 42 "AB12CD34EF56"
    ⟨7, "AB12CD34EF56", 5, false, none, none⟩ (by decide) rfl rfl
  exact ⟨by decide, h.1, h.2⟩

end FaceBot
